import Mathlib

/-! # Control cycle of the simulated Dynamixel motor

A shallow embedding of `src/gazebo_ros_dynamixel_motor.cpp`: the motor state
record, the command and service handlers that mutate it, and the per-step
cycle `OnWorldUpdate = ReadMotor ; UpdateMotor`.

Conventions of the embedding.

* C++ `double` values are idealised as rationals (`ℚ`): every operation the
  cycle performs on them (one product, one difference, `fabs`, `<`, `!=`,
  sign) is taken exactly. Rounding, infinities and NaN are not modelled.
* The plugin object is the record `GazeboRosDynamixelMotor`; a member function
  takes the record and returns the updated record.
* The physics joint is the record `Joint`: the two values the cycle reads
  (angle of axis 0, x component of the reaction torque on body 2) and the two
  axis-0 parameters it writes (`"vel"`, `"fmax"`).
* `nextGaussian<int>(24, 2)` draws a random number; the drawn value is an
  argument (`temp`) of `ReadMotor`.
* Publishing the telemetry message does not change the plugin or the joint and
  is left out of `OnWorldUpdate`.
-/

namespace gazebo

/-- The two control modes of `MotorState::mode`. -/
inductive MotorStateMode where
  | Position
  | Velocity
  deriving DecidableEq, Repr

/-- Modelled from the spec: the record `MotorState` is declared in
`gazebo_plugins/motor_state.h`, which is not among the sources. The fields are
those of the data model table of the specification, plus `motor_id`, which
`createJointStateMsg` reads. -/
structure MotorState where
  mode : MotorStateMode
  motor_id : ℤ
  motor_temp : ℤ
  current_pos_rad : ℚ
  goal_pos_rad : ℚ
  velocity_rad_s : ℚ
  velocity_limit_rad_s : ℚ
  error_rad : ℚ
  is_moving : Bool
  torque_enabled : Bool
  torque_limit : ℚ
  load : ℚ
  demultiply_value : ℚ
  deriving DecidableEq, Repr

/-- Modelled from the spec: `Td::sgn` is declared in
`team_diana_lib/math/math.h`, which is not among the sources. The three-valued
sign: `+1` on positive, `-1` on negative, `0` on zero arguments. -/
def Td.sgn (val : ℚ) : ℤ :=
  if 0 < val then 1 else if val < 0 then -1 else 0

/-- The part of the physics joint the control cycle touches. -/
structure Joint where
  /-- The value of `GetAngle(0).Radian()`. -/
  angle : ℚ
  /-- The value of `GetForceTorque(0).body2Torque.x`. -/
  body2Torque_x : ℚ
  /-- The parameter `"vel"` of axis 0. -/
  vel : ℚ
  /-- The parameter `"fmax"` of axis 0. -/
  fmax : ℚ
  deriving DecidableEq, Repr

/-- One call `joint->SetParam(key, axis, value)`. -/
structure ParamCall where
  key : String
  axis : ℕ
  value : ℚ
  deriving DecidableEq, Repr

/-- The effect of `joint->SetParam(key, axis, value)` on the modelled part of
the joint: the two axis-0 parameters the plugin uses. -/
def Joint.SetParam (j : Joint) (key : String) (axis : ℕ) (value : ℚ) : Joint :=
  if axis = 0 then
    if key = "vel" then { j with vel := value }
    else if key = "fmax" then { j with fmax := value }
    else j
  else j

/-- The effect of `joint->SetPosition(0, position)`. -/
def Joint.SetPosition (j : Joint) (axis : ℕ) (position : ℚ) : Joint :=
  if axis = 0 then { j with angle := position } else j

/-- Replays a sequence of `SetParam` calls on a joint, first call first. -/
def Joint.applyCalls (j : Joint) (calls : List ParamCall) : Joint :=
  calls.foldl (fun acc c => acc.SetParam c.key c.axis c.value) j

/-- The members of the plugin object the control cycle uses. -/
structure GazeboRosDynamixelMotor where
  joint : Joint
  current_motor_state : MotorState
  motor_allowed_error : ℚ
  deriving DecidableEq, Repr

/-- The numeric elements of the plugin's SDF block; `none` for an absent one. -/
structure Sdf where
  reduction_value : Option ℚ
  default_pos : Option ℚ
  default_vel_limit : Option ℚ
  allowed_error : Option ℚ
  default_torque_limit : Option ℚ

/-- The helper `GetValueFromElement<double>(sdf, name, default)`: the element's
value, or the default when the element is absent. -/
def GetValueFromElement (element : Option ℚ) (dflt : ℚ) : ℚ :=
  element.getD dflt

/-- The state part of `GazeboRosDynamixelMotor::Load`. `joint` is the result
of `GetReferencedJoint` (`none` for `nullptr`), `rosInitialized` the value of
`ros::isInitialized()`, and `fresh` the default-constructed `MotorState`
member, whose fields `Load` does not assign keep their value. Both early
returns yield `none`. -/
def Load (joint : Option Joint) (rosInitialized : Bool) (sdf : Sdf)
    (fresh : MotorState) : Option GazeboRosDynamixelMotor :=
  match joint with
  | none => none
  | some j =>
    if !rosInitialized then none
    else
      let default_pos := GetValueFromElement sdf.default_pos 0
      let st : MotorState :=
        { fresh with
          mode := MotorStateMode.Position
          demultiply_value := GetValueFromElement sdf.reduction_value 1
          current_pos_rad := default_pos
          goal_pos_rad := default_pos
          velocity_limit_rad_s := GetValueFromElement sdf.default_vel_limit 1
          torque_enabled := true
          torque_limit := GetValueFromElement sdf.default_torque_limit 10 }
      some
        { joint := j.SetPosition 0 (st.current_pos_rad / st.demultiply_value)
          current_motor_state := st
          motor_allowed_error := GetValueFromElement sdf.allowed_error (1 / 100) }

/-- The subscriber callback of the topic `/command` (lines 132-137). -/
def command_subscriber (p : GazeboRosDynamixelMotor) (data : ℚ) :
    GazeboRosDynamixelMotor :=
  { p with
    current_motor_state :=
      { p.current_motor_state with
        mode := MotorStateMode.Position
        goal_pos_rad := data } }

/-- The subscriber callback of the topic `/vel_tor/command` (lines 139-144). -/
def vel_command (p : GazeboRosDynamixelMotor) (data : ℚ) :
    GazeboRosDynamixelMotor :=
  { p with
    current_motor_state :=
      { p.current_motor_state with
        mode := MotorStateMode.Velocity
        velocity_rad_s := data } }

/-- The handler of the service `/torque_enable` (lines 181-189): the returned
boolean and the updated plugin. -/
def enable_torque_service (p : GazeboRosDynamixelMotor) (torque_enable : Bool) :
    Bool × GazeboRosDynamixelMotor :=
  (true,
    { p with
      current_motor_state :=
        { p.current_motor_state with torque_enabled := torque_enable } })

/-- The handler of the service `/set_torque_limit` (lines 191-198). -/
def torque_limit_f (p : GazeboRosDynamixelMotor) (torque_limit : ℚ) :
    Bool × GazeboRosDynamixelMotor :=
  (true,
    { p with
      current_motor_state :=
        { p.current_motor_state with torque_limit := torque_limit } })

/-- The handler of the service `/set_speed`,
`GazeboRosDynamixelMotor::SetSpeedService` (lines 217-221). -/
def SetSpeedService (p : GazeboRosDynamixelMotor) (speed : ℚ) :
    Bool × GazeboRosDynamixelMotor :=
  (true,
    { p with
      current_motor_state :=
        { p.current_motor_state with velocity_rad_s := speed } })

/-- The member function `GazeboRosDynamixelMotor::ReadMotor` (lines 245-265);
`temp` is the value drawn by `nextGaussian<int>(24, 2)`. -/
def ReadMotor (p : GazeboRosDynamixelMotor) (temp : ℤ) : MotorState :=
  let read_motor_state := p.current_motor_state
  let arm_angle_rad := p.joint.angle
  let read_motor_state :=
    { read_motor_state with
      current_pos_rad := arm_angle_rad * p.current_motor_state.demultiply_value }
  let read_motor_state :=
    if read_motor_state.mode = MotorStateMode.Position then
      let pos_delta_rad :=
        read_motor_state.goal_pos_rad - read_motor_state.current_pos_rad
      { read_motor_state with error_rad := pos_delta_rad }
    else
      { read_motor_state with error_rad := 0 }
  let read_motor_state :=
    { read_motor_state with
      is_moving :=
        decide (read_motor_state.velocity_rad_s ≠ 0) && read_motor_state.torque_enabled }
  let read_motor_state :=
    { read_motor_state with load := p.joint.body2Torque_x }
  { read_motor_state with motor_temp := temp }

/-- The local `goal_reached` of `UpdateMotor` (lines 272-273). -/
def goal_reached (p : GazeboRosDynamixelMotor) (read_motor_state : MotorState) : Bool :=
  let pos_delta_rad :=
    read_motor_state.goal_pos_rad - read_motor_state.current_pos_rad
  decide (|pos_delta_rad| < p.motor_allowed_error)

/-- The local `target_velocity` of `UpdateMotor` (lines 275-276). -/
def target_velocity (p : GazeboRosDynamixelMotor) (read_motor_state : MotorState) : ℚ :=
  let pos_delta_rad :=
    read_motor_state.goal_pos_rad - read_motor_state.current_pos_rad
  (Td.sgn pos_delta_rad : ℚ) * read_motor_state.velocity_limit_rad_s
    * (Td.sgn p.current_motor_state.demultiply_value : ℚ)

/-- The `SetParam` calls `GazeboRosDynamixelMotor::UpdateMotor` makes on the
joint (lines 268-288), in program order. -/
def UpdateMotorCalls (p : GazeboRosDynamixelMotor) (read_motor_state : MotorState) :
    List ParamCall :=
  (if read_motor_state.mode = MotorStateMode.Position then
    if !goal_reached p read_motor_state then
      [⟨"vel", 0, target_velocity p read_motor_state⟩]
    else
      [⟨"vel", 0, 0⟩]
  else [])
  ++
  (if read_motor_state.torque_enabled then
    [⟨"fmax", 0, read_motor_state.torque_limit⟩]
  else
    [⟨"fmax", 0, 0⟩])

/-- The member function `GazeboRosDynamixelMotor::UpdateMotor`: its calls
applied to the joint. -/
def UpdateMotor (p : GazeboRosDynamixelMotor) (read_motor_state : MotorState) :
    GazeboRosDynamixelMotor :=
  { p with joint := p.joint.applyCalls (UpdateMotorCalls p read_motor_state) }

/-- The member function `GazeboRosDynamixelMotor::OnWorldUpdate` (lines
290-298), one tick of the control cycle. -/
def OnWorldUpdate (p : GazeboRosDynamixelMotor) (temp : ℤ) : GazeboRosDynamixelMotor :=
  let p1 := { p with current_motor_state := ReadMotor p temp }
  UpdateMotor p1 p1.current_motor_state

/-- The `SetParam` calls one tick makes on the joint. -/
def OnWorldUpdateCalls (p : GazeboRosDynamixelMotor) (temp : ℤ) : List ParamCall :=
  let p1 := { p with current_motor_state := ReadMotor p temp }
  UpdateMotorCalls p1 p1.current_motor_state

/-- What the simulator hands to one tick: the joint's angle and reaction torque
at that step, and the drawn temperature. -/
structure Reading where
  angle : ℚ
  body2Torque_x : ℚ
  temp : ℤ

/-- The physics engine moves the joint; its parameters stay as written. -/
def Joint.move (j : Joint) (r : Reading) : Joint :=
  { j with angle := r.angle, body2Torque_x := r.body2Torque_x }

/-- What can happen to a loaded plugin: a simulation step, or one of the five
inbound commands and service requests. -/
inductive Event where
  | WorldUpdate (r : Reading)
  | command (data : ℚ)
  | vel_tor_command (data : ℚ)
  | set_speed (speed : ℚ)
  | torque_enable (torque_enable : Bool)
  | set_torque_limit (torque_limit : ℚ)

/-- The plugin after one event. -/
def step (p : GazeboRosDynamixelMotor) : Event → GazeboRosDynamixelMotor
  | .WorldUpdate r => OnWorldUpdate { p with joint := p.joint.move r } r.temp
  | .command data => command_subscriber p data
  | .vel_tor_command data => vel_command p data
  | .set_speed speed => (SetSpeedService p speed).2
  | .torque_enable b => (enable_torque_service p b).2
  | .set_torque_limit x => (torque_limit_f p x).2

/-- The plugin after a sequence of events, first event first. -/
def run (p : GazeboRosDynamixelMotor) (events : List Event) : GazeboRosDynamixelMotor :=
  events.foldl step p

/-- The `SetParam` calls of each tick of a sequence of simulation steps with
no other event in between, first tick first. -/
def tickCalls (p : GazeboRosDynamixelMotor) : List Reading → List (List ParamCall)
  | [] => []
  | r :: rs =>
    OnWorldUpdateCalls { p with joint := p.joint.move r } r.temp
      :: tickCalls (step p (.WorldUpdate r)) rs

/-- The values a list of calls writes to the parameter `key` of axis 0. -/
def writesTo (key : String) (calls : List ParamCall) : List ℚ :=
  (calls.filter (fun c => c.key = key && c.axis = 0)).map (fun c => c.value)

/-- The predicate of the state invariant: outside Position mode the stored
error is zero. -/
def errorZeroOutsidePosition (s : MotorState) : Prop :=
  s.mode ≠ MotorStateMode.Position → s.error_rad = 0

instance (s : MotorState) : Decidable (errorZeroOutsidePosition s) := by
  unfold errorZeroOutsidePosition; infer_instance

/-- Whether an event is a torque-limit request. -/
def Event.isSetTorqueLimit : Event → Bool
  | .set_torque_limit _ => true
  | _ => false

/-- Whether an event is a velocity command. -/
def Event.isVelCommand : Event → Bool
  | .vel_tor_command _ => true
  | _ => false

/-- Whether an event is a simulation step. -/
def Event.isWorldUpdate : Event → Bool
  | .WorldUpdate _ => true
  | _ => false

/-- Whether a velocity command has been handled after the last simulation step
of the sequence (or, when the sequence has no step, at all). -/
def pendingVelCommand (events : List Event) : Bool :=
  events.foldl
    (fun pending e => if e.isWorldUpdate then false else pending || e.isVelCommand) false

/-- A stored state in Velocity mode with a nonzero commanded velocity, on a
joint whose velocity parameter holds 7. -/
def velocityModeExample : GazeboRosDynamixelMotor :=
  { joint := { angle := 1 / 2, body2Torque_x := 0, vel := 7, fmax := 10 }
    current_motor_state :=
      { mode := MotorStateMode.Velocity, motor_id := 1, motor_temp := 24
        current_pos_rad := 0, goal_pos_rad := 1, velocity_rad_s := 3
        velocity_limit_rad_s := 2, error_rad := 0, is_moving := false
        torque_enabled := true, torque_limit := 10, load := 0
        demultiply_value := 1 }
    motor_allowed_error := 1 / 100 }

/-- A stored state in Position mode, goal 1, on a joint at angle 1/2: the
scenario "tolerance 0.01, goal 1.0, current 0.5, velocity limit 2.0,
demultiply 1". -/
def positionModeExample : GazeboRosDynamixelMotor :=
  { joint := { angle := 1 / 2, body2Torque_x := 0, vel := 0, fmax := 0 }
    current_motor_state :=
      { mode := MotorStateMode.Position, motor_id := 1, motor_temp := 24
        current_pos_rad := 0, goal_pos_rad := 1, velocity_rad_s := 0
        velocity_limit_rad_s := 2, error_rad := 0, is_moving := false
        torque_enabled := true, torque_limit := 10, load := 0
        demultiply_value := 1 }
    motor_allowed_error := 1 / 100 }

/-- A stored state in Position mode, goal 1, on a joint at angle 1.005 whose
velocity parameter still holds 2: the scenario "tolerance 0.01, goal 1.0,
current 1.005". -/
def atGoalExample : GazeboRosDynamixelMotor :=
  { joint := { angle := 201 / 200, body2Torque_x := 0, vel := 2, fmax := 10 }
    current_motor_state :=
      { mode := MotorStateMode.Position, motor_id := 1, motor_temp := 24
        current_pos_rad := 0, goal_pos_rad := 1, velocity_rad_s := 0
        velocity_limit_rad_s := 2, error_rad := 0, is_moving := false
        torque_enabled := true, torque_limit := 10, load := 0
        demultiply_value := 1 }
    motor_allowed_error := 1 / 100 }

/-- An SDF block with none of the numeric elements: every default applies. -/
def emptySdf : Sdf :=
  { reduction_value := none, default_pos := none, default_vel_limit := none
    allowed_error := none, default_torque_limit := none }

/-- An SDF block that only sets a negative `default_vel_limit`. -/
def negativeLimitSdf : Sdf :=
  { emptySdf with default_vel_limit := some (-2) }

/-- A default-constructed motor state with every field zero. -/
def zeroMotorState : MotorState :=
  { mode := MotorStateMode.Position, motor_id := 0, motor_temp := 0
    current_pos_rad := 0, goal_pos_rad := 0, velocity_rad_s := 0
    velocity_limit_rad_s := 0, error_rad := 0, is_moving := false
    torque_enabled := false, torque_limit := 0, load := 0
    demultiply_value := 0 }

/-- A joint at rest with both parameters zero. -/
def restJoint : Joint :=
  { angle := 0, body2Torque_x := 0, vel := 0, fmax := 0 }

/-- The plugin `Load` builds from `restJoint`, `emptySdf` and `zeroMotorState`:
every configured value is its default. -/
def defaultLoaded : GazeboRosDynamixelMotor :=
  { joint := restJoint
    current_motor_state :=
      { zeroMotorState with
        demultiply_value := 1, velocity_limit_rad_s := 1
        torque_enabled := true, torque_limit := 10 }
    motor_allowed_error := 1 / 100 }

/-- The plugin `Load` builds from `restJoint`, `negativeLimitSdf` and
`zeroMotorState`: the configured velocity limit is -2. -/
def negativeLimitLoaded : GazeboRosDynamixelMotor :=
  { defaultLoaded with
    current_motor_state :=
      { defaultLoaded.current_motor_state with velocity_limit_rad_s := -2 } }

/-- The Position-mode example as stored by a tick: goal 1, current 0.5, error
0.5. -/
def sampledExample : GazeboRosDynamixelMotor :=
  { positionModeExample with current_motor_state := ReadMotor positionModeExample 24 }

/-! ## Sampling -/

/-- C1: the state returned by `ReadMotor` keeps the stored mode, has
`current_pos_rad` equal to the joint angle times the stored `demultiply_value`,
and has `error_rad` equal to the stored goal minus that product in Position mode
and equal to zero in Velocity mode, whatever the stored state and the joint
are. -/
theorem ReadMotor_current_pos_and_error (p : GazeboRosDynamixelMotor) (temp : ℤ) :
    (ReadMotor p temp).mode = p.current_motor_state.mode ∧
    (ReadMotor p temp).current_pos_rad
      = p.joint.angle * p.current_motor_state.demultiply_value ∧
    (ReadMotor p temp).error_rad =
      (match p.current_motor_state.mode with
       | MotorStateMode.Position =>
         p.current_motor_state.goal_pos_rad
           - p.joint.angle * p.current_motor_state.demultiply_value
       | MotorStateMode.Velocity => 0) := by
  cases hm : p.current_motor_state.mode <;> simp [ReadMotor, hm]

/-- C6: the state returned by `ReadMotor` has `is_moving` equal to
"stored `velocity_rad_s` is nonzero and stored `torque_enabled` is set"; the
right-hand side mentions neither the mode, nor the previous `is_moving`, nor
the joint. So `is_moving` is true exactly when the velocity is nonzero and the
torque is enabled; it is false whenever the stored velocity is zero and
whenever the torque is disabled, whatever the other fields are. -/
theorem ReadMotor_is_moving (p : GazeboRosDynamixelMotor) (s : MotorState) (temp : ℤ) :
    (ReadMotor p temp).is_moving
      = (decide (p.current_motor_state.velocity_rad_s ≠ 0)
          && p.current_motor_state.torque_enabled) ∧
    ((ReadMotor p temp).is_moving = true ↔
      p.current_motor_state.velocity_rad_s ≠ 0
        ∧ p.current_motor_state.torque_enabled = true) ∧
    (ReadMotor { p with current_motor_state := { s with velocity_rad_s := 0 } }
      temp).is_moving = false ∧
    (ReadMotor { p with current_motor_state := { s with torque_enabled := false } }
      temp).is_moving = false := by
  have h : ∀ q : GazeboRosDynamixelMotor, (ReadMotor q temp).is_moving
      = (decide (q.current_motor_state.velocity_rad_s ≠ 0)
          && q.current_motor_state.torque_enabled) := by
    intro q
    cases hm : q.current_motor_state.mode <;> simp [ReadMotor, hm]
  refine ⟨h p, ?_, ?_, ?_⟩
  · rw [h p]; simp
  · rw [h]; simp
  · rw [h]; simp

/-! ## Command and service handlers -/

/-- C10: the handler mutation contract. For every plugin state and payload, the
position command sets `mode` to Position and `goal_pos_rad` to the payload; the
velocity command sets `mode` to Velocity and `velocity_rad_s` to the payload;
the torque-enable request sets `torque_enabled` to the payload; the torque-limit
request sets `torque_limit` to the payload. Every other field of the motor
state, the joint and the tolerance are unchanged, no payload is rejected, and
both service handlers return `true`. -/
theorem handler_mutation_contract (p : GazeboRosDynamixelMotor) (x : ℚ) (b : Bool) :
    (
    (command_subscriber p x).current_motor_state.mode = MotorStateMode.Position ∧
    (command_subscriber p x).current_motor_state.motor_id = p.current_motor_state.motor_id ∧
    (command_subscriber p x).current_motor_state.motor_temp = p.current_motor_state.motor_temp ∧
    (command_subscriber p x).current_motor_state.current_pos_rad
      = p.current_motor_state.current_pos_rad ∧
    (command_subscriber p x).current_motor_state.goal_pos_rad = x ∧
    (command_subscriber p x).current_motor_state.velocity_rad_s
      = p.current_motor_state.velocity_rad_s ∧
    (command_subscriber p x).current_motor_state.velocity_limit_rad_s
      = p.current_motor_state.velocity_limit_rad_s ∧
    (command_subscriber p x).current_motor_state.error_rad = p.current_motor_state.error_rad ∧
    (command_subscriber p x).current_motor_state.is_moving = p.current_motor_state.is_moving ∧
    (command_subscriber p x).current_motor_state.torque_enabled
      = p.current_motor_state.torque_enabled ∧
    (command_subscriber p x).current_motor_state.torque_limit = p.current_motor_state.torque_limit ∧
    (command_subscriber p x).current_motor_state.load = p.current_motor_state.load ∧
    (command_subscriber p x).current_motor_state.demultiply_value
      = p.current_motor_state.demultiply_value ∧
    (command_subscriber p x).joint = p.joint ∧
    (command_subscriber p x).motor_allowed_error = p.motor_allowed_error) ∧
    (
    (vel_command p x).current_motor_state.mode = MotorStateMode.Velocity ∧
    (vel_command p x).current_motor_state.motor_id = p.current_motor_state.motor_id ∧
    (vel_command p x).current_motor_state.motor_temp = p.current_motor_state.motor_temp ∧
    (vel_command p x).current_motor_state.current_pos_rad = p.current_motor_state.current_pos_rad ∧
    (vel_command p x).current_motor_state.goal_pos_rad = p.current_motor_state.goal_pos_rad ∧
    (vel_command p x).current_motor_state.velocity_rad_s = x ∧
    (vel_command p x).current_motor_state.velocity_limit_rad_s
      = p.current_motor_state.velocity_limit_rad_s ∧
    (vel_command p x).current_motor_state.error_rad = p.current_motor_state.error_rad ∧
    (vel_command p x).current_motor_state.is_moving = p.current_motor_state.is_moving ∧
    (vel_command p x).current_motor_state.torque_enabled = p.current_motor_state.torque_enabled ∧
    (vel_command p x).current_motor_state.torque_limit = p.current_motor_state.torque_limit ∧
    (vel_command p x).current_motor_state.load = p.current_motor_state.load ∧
    (vel_command p x).current_motor_state.demultiply_value
      = p.current_motor_state.demultiply_value ∧
    (vel_command p x).joint = p.joint ∧
    (vel_command p x).motor_allowed_error = p.motor_allowed_error) ∧
    ((enable_torque_service p b).1 = true ∧
    ((enable_torque_service p b).2).current_motor_state.mode = p.current_motor_state.mode ∧
    ((enable_torque_service p b).2).current_motor_state.motor_id = p.current_motor_state.motor_id ∧
    ((enable_torque_service p b).2).current_motor_state.motor_temp
      = p.current_motor_state.motor_temp ∧
    ((enable_torque_service p b).2).current_motor_state.current_pos_rad
      = p.current_motor_state.current_pos_rad ∧
    ((enable_torque_service p b).2).current_motor_state.goal_pos_rad
      = p.current_motor_state.goal_pos_rad ∧
    ((enable_torque_service p b).2).current_motor_state.velocity_rad_s
      = p.current_motor_state.velocity_rad_s ∧
    ((enable_torque_service p b).2).current_motor_state.velocity_limit_rad_s
      = p.current_motor_state.velocity_limit_rad_s ∧
    ((enable_torque_service p b).2).current_motor_state.error_rad
      = p.current_motor_state.error_rad ∧
    ((enable_torque_service p b).2).current_motor_state.is_moving
      = p.current_motor_state.is_moving ∧
    ((enable_torque_service p b).2).current_motor_state.torque_enabled = b ∧
    ((enable_torque_service p b).2).current_motor_state.torque_limit
      = p.current_motor_state.torque_limit ∧
    ((enable_torque_service p b).2).current_motor_state.load = p.current_motor_state.load ∧
    ((enable_torque_service p b).2).current_motor_state.demultiply_value
      = p.current_motor_state.demultiply_value ∧
    ((enable_torque_service p b).2).joint = p.joint ∧
    ((enable_torque_service p b).2).motor_allowed_error = p.motor_allowed_error) ∧
    ((torque_limit_f p x).1 = true ∧
    ((torque_limit_f p x).2).current_motor_state.mode = p.current_motor_state.mode ∧
    ((torque_limit_f p x).2).current_motor_state.motor_id = p.current_motor_state.motor_id ∧
    ((torque_limit_f p x).2).current_motor_state.motor_temp = p.current_motor_state.motor_temp ∧
    ((torque_limit_f p x).2).current_motor_state.current_pos_rad
      = p.current_motor_state.current_pos_rad ∧
    ((torque_limit_f p x).2).current_motor_state.goal_pos_rad = p.current_motor_state.goal_pos_rad ∧
    ((torque_limit_f p x).2).current_motor_state.velocity_rad_s
      = p.current_motor_state.velocity_rad_s ∧
    ((torque_limit_f p x).2).current_motor_state.velocity_limit_rad_s
      = p.current_motor_state.velocity_limit_rad_s ∧
    ((torque_limit_f p x).2).current_motor_state.error_rad = p.current_motor_state.error_rad ∧
    ((torque_limit_f p x).2).current_motor_state.is_moving = p.current_motor_state.is_moving ∧
    ((torque_limit_f p x).2).current_motor_state.torque_enabled
      = p.current_motor_state.torque_enabled ∧
    ((torque_limit_f p x).2).current_motor_state.torque_limit = x ∧
    ((torque_limit_f p x).2).current_motor_state.load = p.current_motor_state.load ∧
    ((torque_limit_f p x).2).current_motor_state.demultiply_value
      = p.current_motor_state.demultiply_value ∧
    ((torque_limit_f p x).2).joint = p.joint ∧
    ((torque_limit_f p x).2).motor_allowed_error = p.motor_allowed_error) := by
  simp [command_subscriber, vel_command, enable_torque_service, torque_limit_f]

/-! ## Auxiliary facts about the joint writes -/

theorem applyCalls_fmax_only (j : Joint) (v : ℚ) :
    j.applyCalls [⟨"fmax", 0, v⟩] = { j with fmax := v } := by
  simp [Joint.applyCalls, Joint.SetParam]

theorem applyCalls_vel_fmax (j : Joint) (v f : ℚ) :
    j.applyCalls [⟨"vel", 0, v⟩, ⟨"fmax", 0, f⟩] = { j with vel := v, fmax := f } := by
  simp [Joint.applyCalls, Joint.SetParam]

theorem UpdateMotorCalls_velocity (p : GazeboRosDynamixelMotor) (rs : MotorState)
    (h : rs.mode = MotorStateMode.Velocity) :
    UpdateMotorCalls p rs
      = [⟨"fmax", 0, if rs.torque_enabled then rs.torque_limit else 0⟩] := by
  cases ht : rs.torque_enabled <;> simp [UpdateMotorCalls, h, ht]

theorem UpdateMotorCalls_position (p : GazeboRosDynamixelMotor) (rs : MotorState)
    (h : rs.mode = MotorStateMode.Position) :
    UpdateMotorCalls p rs
      = [⟨"vel", 0, if goal_reached p rs then 0 else target_velocity p rs⟩,
         ⟨"fmax", 0, if rs.torque_enabled then rs.torque_limit else 0⟩] := by
  cases ht : rs.torque_enabled <;> cases hg : goal_reached p rs <;>
    simp [UpdateMotorCalls, h, ht, hg]

theorem step_torque_limit (p : GazeboRosDynamixelMotor) (e : Event)
    (h : e.isSetTorqueLimit = false) :
    (step p e).current_motor_state.torque_limit = p.current_motor_state.torque_limit := by
  cases e with
  | WorldUpdate r =>
    cases hm : p.current_motor_state.mode <;>
      simp [step, OnWorldUpdate, UpdateMotor, ReadMotor, hm]
  | set_torque_limit x => simp [Event.isSetTorqueLimit] at h
  | _ => simp [step, command_subscriber, vel_command, SetSpeedService, enable_torque_service]

theorem run_torque_limit (events : List Event) :
    ∀ p : GazeboRosDynamixelMotor, (∀ e ∈ events, e.isSetTorqueLimit = false) →
      (run p events).current_motor_state.torque_limit
        = p.current_motor_state.torque_limit := by
  induction events with
  | nil => intro p _; rfl
  | cons e es ih =>
    intro p h
    have he := h e (List.mem_cons_self e es)
    have hes : ∀ x ∈ es, x.isSetTorqueLimit = false :=
      fun x hx => h x (List.mem_cons_of_mem e hx)
    show (run (step p e) es).current_motor_state.torque_limit = _
    rw [ih (step p e) hes, step_torque_limit p e he]

theorem run_append (p : GazeboRosDynamixelMotor) (es fs : List Event) :
    run p (es ++ fs) = run (run p es) fs := by
  simp [run, List.foldl_append]

theorem ReadMotor_mode (p : GazeboRosDynamixelMotor) (temp : ℤ) :
    (ReadMotor p temp).mode = p.current_motor_state.mode := by
  cases hm : p.current_motor_state.mode <;> simp [ReadMotor, hm]

theorem ReadMotor_position (p : GazeboRosDynamixelMotor) (temp : ℤ)
    (hm : p.current_motor_state.mode = MotorStateMode.Position) :
    ReadMotor p temp =
      { p.current_motor_state with
        current_pos_rad := p.joint.angle * p.current_motor_state.demultiply_value
        error_rad := p.current_motor_state.goal_pos_rad
          - p.joint.angle * p.current_motor_state.demultiply_value
        is_moving := decide (p.current_motor_state.velocity_rad_s ≠ 0)
          && p.current_motor_state.torque_enabled
        load := p.joint.body2Torque_x
        motor_temp := temp } := by
  simp [ReadMotor, hm]

theorem goal_reached_iff (p : GazeboRosDynamixelMotor) (rs : MotorState) :
    goal_reached p rs = true
      ↔ |rs.goal_pos_rad - rs.current_pos_rad| < p.motor_allowed_error := by
  simp [goal_reached]

theorem goal_reached_eq_false_iff (p : GazeboRosDynamixelMotor) (rs : MotorState) :
    goal_reached p rs = false
      ↔ ¬ |rs.goal_pos_rad - rs.current_pos_rad| < p.motor_allowed_error := by
  simp [goal_reached]

/-- The velocity a Position-mode call of `UpdateMotor` leaves in the joint. -/
theorem UpdateMotor_position_vel (p : GazeboRosDynamixelMotor) (rs : MotorState)
    (h : rs.mode = MotorStateMode.Position) :
    writesTo "vel" (UpdateMotorCalls p rs)
      = [if goal_reached p rs then 0 else target_velocity p rs] ∧
    (UpdateMotor p rs).joint.vel
      = (if goal_reached p rs then 0 else target_velocity p rs) := by
  constructor
  · simp [UpdateMotorCalls_position p rs h, writesTo]
  · simp [UpdateMotor, UpdateMotorCalls_position p rs h, applyCalls_vel_fmax]

/-- One tick with the joint at an angle within tolerance of the goal: the tick
writes velocity 0 and leaves mode, goal, scale and tolerance as they were. -/
theorem tick_at_goal (p : GazeboRosDynamixelMotor) (r : Reading)
    (hm : p.current_motor_state.mode = MotorStateMode.Position)
    (hr : |p.current_motor_state.goal_pos_rad
        - r.angle * p.current_motor_state.demultiply_value| < p.motor_allowed_error) :
    writesTo "vel" (OnWorldUpdateCalls { p with joint := p.joint.move r } r.temp) = [0] ∧
    (step p (Event.WorldUpdate r)).joint.vel = 0 ∧
    (step p (Event.WorldUpdate r)).current_motor_state.mode = MotorStateMode.Position ∧
    (step p (Event.WorldUpdate r)).current_motor_state.goal_pos_rad
      = p.current_motor_state.goal_pos_rad ∧
    (step p (Event.WorldUpdate r)).current_motor_state.demultiply_value
      = p.current_motor_state.demultiply_value ∧
    (step p (Event.WorldUpdate r)).motor_allowed_error = p.motor_allowed_error := by
  have hrd := ReadMotor_position { p with joint := p.joint.move r } r.temp hm
  have hg : goal_reached
      { p with joint := p.joint.move r,
               current_motor_state := ReadMotor { p with joint := p.joint.move r } r.temp }
      (ReadMotor { p with joint := p.joint.move r } r.temp) = true := by
    rw [goal_reached_iff, hrd]
    simpa [Joint.move] using hr
  have hm2 : (ReadMotor { p with joint := p.joint.move r } r.temp).mode
      = MotorStateMode.Position := by
    rw [ReadMotor_mode]; exact hm
  have hv := UpdateMotor_position_vel
    { p with joint := p.joint.move r,
             current_motor_state := ReadMotor { p with joint := p.joint.move r } r.temp }
    (ReadMotor { p with joint := p.joint.move r } r.temp) hm2
  rw [hg] at hv
  refine ⟨?_, ?_, ?_, ?_, ?_, ?_⟩
  · simpa [OnWorldUpdateCalls] using hv.1
  · simpa [step, OnWorldUpdate] using hv.2
  · simpa [step, OnWorldUpdate, UpdateMotor] using hm2
  · simp [step, OnWorldUpdate, UpdateMotor, hrd]
  · simp [step, OnWorldUpdate, UpdateMotor, hrd]
  · simp [step, OnWorldUpdate, UpdateMotor]

/-- Ticks at a fixed joint angle within tolerance of the goal all write
velocity 0. -/
theorem tickCalls_at_goal (theta : ℚ) (readings : List Reading) :
    ∀ p : GazeboRosDynamixelMotor,
      p.current_motor_state.mode = MotorStateMode.Position →
      |p.current_motor_state.goal_pos_rad
        - theta * p.current_motor_state.demultiply_value| < p.motor_allowed_error →
      (∀ r ∈ readings, r.angle = theta) →
      (∀ calls ∈ tickCalls p readings, writesTo "vel" calls = [0]) ∧
      (readings ≠ [] → (run p (readings.map Event.WorldUpdate)).joint.vel = 0) := by
  induction readings with
  | nil => intro p _ _ _; simp [tickCalls]
  | cons r rs ih =>
    intro p hm hr hall
    have hra : r.angle = theta := hall r (List.mem_cons_self r rs)
    have ht := tick_at_goal p r hm (by rw [hra]; exact hr)
    obtain ⟨h1, h2, h3, h4, h5, h6⟩ := ht
    have ih2 := ih (step p (Event.WorldUpdate r)) h3 (by rw [h4, h5, h6]; exact hr)
      (fun x hx => hall x (List.mem_cons_of_mem r hx))
    constructor
    · intro calls hc
      simp only [tickCalls, List.mem_cons] at hc
      rcases hc with rfl | hc
      · exact h1
      · exact ih2.1 calls hc
    · intro _
      show (run (step p (Event.WorldUpdate r)) (rs.map Event.WorldUpdate)).joint.vel = 0
      by_cases hrs : rs = []
      · subst hrs; simpa [run] using h2
      · exact ih2.2 hrs

theorem tickCalls_length (readings : List Reading) :
    ∀ p : GazeboRosDynamixelMotor, (tickCalls p readings).length = readings.length := by
  induction readings with
  | nil => intro p; rfl
  | cons r rs ih => intro p; simp [tickCalls, ih]

/-! ## Auxiliary facts about the sign -/

theorem Td_sgn_neg (x : ℚ) : Td.sgn (-x) = - Td.sgn x := by
  rcases lt_trichotomy x 0 with hx | hx | hx
  · have h1 : ¬ 0 < x := not_lt.mpr hx.le
    simp [Td.sgn, hx, h1]
  · simp [Td.sgn, hx]
  · have h1 : ¬ x < 0 := not_lt.mpr hx.le
    simp [Td.sgn, hx, h1]

theorem Td_sgn_pos (x : ℚ) (h : 0 < x) : Td.sgn x = 1 := by simp [Td.sgn, h]
theorem Td_sgn_neg_of_neg (x : ℚ) (h : x < 0) : Td.sgn x = -1 := by
  simp [Td.sgn, h, not_lt.mpr h.le]
theorem Td_sgn_zero : Td.sgn 0 = 0 := by simp [Td.sgn]

theorem Td_sgn_mul (x y : ℚ) : Td.sgn (x * y) = Td.sgn x * Td.sgn y := by
  rcases lt_trichotomy x 0 with hx | hx | hx <;>
  rcases lt_trichotomy y 0 with hy | hy | hy
  · rw [Td_sgn_neg_of_neg x hx, Td_sgn_neg_of_neg y hy, Td_sgn_pos _ (mul_pos_of_neg_of_neg hx hy)]; rfl
  · subst hy; simp [Td_sgn_zero]
  · rw [Td_sgn_neg_of_neg x hx, Td_sgn_pos y hy, Td_sgn_neg_of_neg _ (mul_neg_of_neg_of_pos hx hy)]; rfl
  · subst hx; simp [Td_sgn_zero]
  · subst hx; simp [Td_sgn_zero]
  · subst hx; simp [Td_sgn_zero]
  · rw [Td_sgn_pos x hx, Td_sgn_neg_of_neg y hy, Td_sgn_neg_of_neg _ (mul_neg_of_pos_of_neg hx hy)]; rfl
  · subst hy; simp [Td_sgn_zero]
  · rw [Td_sgn_pos x hx, Td_sgn_pos y hy, Td_sgn_pos _ (mul_pos hx hy)]; rfl

theorem Td_sgn_cast (x : ℚ) : Td.sgn ((Td.sgn x : ℤ) : ℚ) = Td.sgn x := by
  rcases lt_trichotomy x 0 with hx | hx | hx
  · rw [Td_sgn_neg_of_neg x hx]; simp [Td.sgn]
  · subst hx; simp [Td.sgn]
  · rw [Td_sgn_pos x hx]; simp [Td.sgn]

theorem abs_Td_sgn (x : ℚ) (h : x ≠ 0) : |((Td.sgn x : ℤ) : ℚ)| = 1 := by
  rcases lt_trichotomy x 0 with hx | hx | hx
  · rw [Td_sgn_neg_of_neg x hx]; simp
  · exact absurd hx h
  · rw [Td_sgn_pos x hx]; simp
/-! ## Auxiliary facts about the state invariant -/

theorem step_WorldUpdate_errorZero (p : GazeboRosDynamixelMotor) (r : Reading) :
    errorZeroOutsidePosition (step p (Event.WorldUpdate r)).current_motor_state := by
  cases hm : p.current_motor_state.mode <;>
    simp [errorZeroOutsidePosition, step, OnWorldUpdate, UpdateMotor, ReadMotor, hm]

theorem step_preserves_errorZero (p : GazeboRosDynamixelMotor) (e : Event)
    (he : e.isVelCommand = false)
    (h : errorZeroOutsidePosition p.current_motor_state) :
    errorZeroOutsidePosition (step p e).current_motor_state := by
  cases e with
  | WorldUpdate r => exact step_WorldUpdate_errorZero p r
  | vel_tor_command x => simp [Event.isVelCommand] at he
  | command x => simp [errorZeroOutsidePosition, step, command_subscriber]
  | set_speed x => simpa [errorZeroOutsidePosition, step, SetSpeedService] using h
  | torque_enable b => simpa [errorZeroOutsidePosition, step, enable_torque_service] using h
  | set_torque_limit x => simpa [errorZeroOutsidePosition, step, torque_limit_f] using h

theorem run_errorZero_of_not_pending (events : List Event) :
    ∀ (p : GazeboRosDynamixelMotor) (pending : Bool),
      (pending = false → errorZeroOutsidePosition p.current_motor_state) →
      events.foldl
        (fun pending e => if e.isWorldUpdate then false else pending || e.isVelCommand)
        pending = false →
      errorZeroOutsidePosition (run p events).current_motor_state := by
  induction events with
  | nil => intro p pending h hp; exact h hp
  | cons e es ih =>
    intro p pending h hp
    refine ih (step p e) _ ?_ hp
    intro hflag
    cases e with
    | WorldUpdate r => exact step_WorldUpdate_errorZero p r
    | vel_tor_command x => simp [Event.isWorldUpdate, Event.isVelCommand] at hflag
    | command x =>
      have hpend : pending = false := by
        simpa [Event.isWorldUpdate, Event.isVelCommand] using hflag
      exact step_preserves_errorZero p (Event.command x) rfl (h hpend)
    | set_speed x =>
      have hpend : pending = false := by
        simpa [Event.isWorldUpdate, Event.isVelCommand] using hflag
      exact step_preserves_errorZero p (Event.set_speed x) rfl (h hpend)
    | torque_enable b =>
      have hpend : pending = false := by
        simpa [Event.isWorldUpdate, Event.isVelCommand] using hflag
      exact step_preserves_errorZero p (Event.torque_enable b) rfl (h hpend)
    | set_torque_limit x =>
      have hpend : pending = false := by
        simpa [Event.isWorldUpdate, Event.isVelCommand] using hflag
      exact step_preserves_errorZero p (Event.set_torque_limit x) rfl (h hpend)

theorem Load_mode (joint : Option Joint) (rosInitialized : Bool) (sdf : Sdf)
    (fresh : MotorState) (p : GazeboRosDynamixelMotor)
    (h : Load joint rosInitialized sdf fresh = some p) :
    p.current_motor_state.mode = MotorStateMode.Position := by
  cases joint with
  | none => simp [Load] at h
  | some j =>
    cases rosInitialized with
    | false => simp [Load] at h
    | true =>
      simp [Load] at h
      rw [← h]

/-! ## Actuation -/

/-- C7: in Velocity mode `UpdateMotor` makes exactly one call on the joint, the
write of the force limit `"fmax"`; it writes nothing to `"vel"`, so the joint's
velocity parameter (like its angle and torque reading) is the same after the
call as before, whatever the commanded `velocity_rad_s` is. The same holds for a
whole tick from a stored Velocity-mode state. -/
theorem UpdateMotor_velocity_mode_writes_only_fmax (p : GazeboRosDynamixelMotor)
    (rs : MotorState) (temp : ℤ) (h : rs.mode = MotorStateMode.Velocity) :
    UpdateMotorCalls p rs
      = [⟨"fmax", 0, if rs.torque_enabled then rs.torque_limit else 0⟩] ∧
    writesTo "vel" (UpdateMotorCalls p rs) = [] ∧
    (UpdateMotor p rs).joint.vel = p.joint.vel ∧
    (UpdateMotor p rs).joint.angle = p.joint.angle ∧
    (UpdateMotor p rs).joint.body2Torque_x = p.joint.body2Torque_x ∧
    (UpdateMotor p rs).current_motor_state = p.current_motor_state ∧
    writesTo "vel" (OnWorldUpdateCalls { p with current_motor_state := rs } temp) = [] ∧
    (OnWorldUpdate { p with current_motor_state := rs } temp).joint.vel = p.joint.vel := by
  have hc := UpdateMotorCalls_velocity p rs h
  have hr : (ReadMotor { p with current_motor_state := rs } temp).mode
      = MotorStateMode.Velocity := by
    simp [ReadMotor, h]
  refine ⟨hc, ?_, ?_, ?_, ?_, rfl, ?_, ?_⟩
  · simp [hc, writesTo]
  · simp [UpdateMotor, hc, applyCalls_fmax_only]
  · simp [UpdateMotor, hc, applyCalls_fmax_only]
  · simp [UpdateMotor, hc, applyCalls_fmax_only]
  · simp [OnWorldUpdateCalls, UpdateMotorCalls_velocity _ _ hr, writesTo]
  · simp [OnWorldUpdate, UpdateMotor, UpdateMotorCalls_velocity _ _ hr, applyCalls_fmax_only]

/-- Witness of C7: the Velocity-mode example commands 3 rad/s while the joint's
velocity parameter holds 7; after `UpdateMotor` and after a whole tick it still
holds 7. -/
theorem UpdateMotor_velocity_mode_writes_only_fmax_witness :
    velocityModeExample.current_motor_state.mode = MotorStateMode.Velocity ∧
    velocityModeExample.current_motor_state.velocity_rad_s = 3 ∧
    (UpdateMotor velocityModeExample velocityModeExample.current_motor_state).joint.vel = 7 ∧
    (OnWorldUpdate velocityModeExample 24).joint.vel = 7 :=
  have h := UpdateMotor_velocity_mode_writes_only_fmax velocityModeExample
    velocityModeExample.current_motor_state 24 rfl
  ⟨rfl, rfl, h.2.2.1, h.2.2.2.2.2.2.2⟩

/-- C2: torque gating. In either mode `UpdateMotor` makes exactly one write to
the force limit `"fmax"`, of `torque_limit` when `torque_enabled` is set and of
`0` when it is not, and that is the value the joint holds afterwards. A disable
request, then any events other than a torque-limit request, then an enable
request, leave `torque_limit` as stored before the disable, and the next tick
writes exactly that value to `"fmax"`. -/
theorem torque_gating (p : GazeboRosDynamixelMotor) (rs : MotorState)
    (between : List Event) (r : Reading)
    (hb : ∀ e ∈ between, e.isSetTorqueLimit = false) :
    writesTo "fmax" (UpdateMotorCalls p rs)
      = [if rs.torque_enabled then rs.torque_limit else 0] ∧
    (UpdateMotor p rs).joint.fmax = (if rs.torque_enabled then rs.torque_limit else 0) ∧
    (run p (Event.torque_enable false :: between
        ++ [Event.torque_enable true])).current_motor_state.torque_limit
      = p.current_motor_state.torque_limit ∧
    (run p (Event.torque_enable false :: between
        ++ [Event.torque_enable true, Event.WorldUpdate r])).joint.fmax
      = p.current_motor_state.torque_limit := by
  refine ⟨?_, ?_, ?_⟩
  · cases hm : rs.mode
    · simp [UpdateMotorCalls_position p rs hm, writesTo]
    · simp [UpdateMotorCalls_velocity p rs hm, writesTo]
  · cases hm : rs.mode
    · simp [UpdateMotor, UpdateMotorCalls_position p rs hm, applyCalls_vel_fmax]
    · simp [UpdateMotor, UpdateMotorCalls_velocity p rs hm, applyCalls_fmax_only]
  · have hall : ∀ e ∈ Event.torque_enable false :: between ++ [Event.torque_enable true],
        e.isSetTorqueLimit = false := by
      intro e he
      simp only [List.cons_append, List.mem_cons, List.mem_append, List.mem_singleton,
        List.not_mem_nil, or_false] at he
      rcases he with rfl | he | rfl
      · rfl
      · exact hb e he
      · rfl
    have hl := run_torque_limit _ p hall
    refine ⟨hl, ?_⟩
    have happ : Event.torque_enable false :: between
          ++ [Event.torque_enable true, Event.WorldUpdate r]
        = (Event.torque_enable false :: between ++ [Event.torque_enable true])
          ++ [Event.WorldUpdate r] := by simp
    rw [happ, run_append]
    generalize hq : run p (Event.torque_enable false :: between) = q at *
    have hq2 : run p (Event.torque_enable false :: between ++ [Event.torque_enable true])
        = (enable_torque_service q true).2 := by
      rw [← hq]
      show run p ((Event.torque_enable false :: between) ++ [Event.torque_enable true]) = _
      rw [run_append]; rfl
    rw [hq2] at hl ⊢
    cases hm : q.current_motor_state.mode <;>
      simp [run, step, OnWorldUpdate, UpdateMotor, UpdateMotorCalls, ReadMotor,
        enable_torque_service, Joint.applyCalls, Joint.SetParam, Joint.move, hm] <;>
      simpa [enable_torque_service] using hl

/-- Witness of C2: on the Position-mode example (torque limit 10) a disable
request, a position command, a tick, a velocity command, a set-speed request
and an enable request are followed by a tick that writes 10 to `"fmax"`; with
torque disabled `UpdateMotor` writes 0. -/
theorem torque_gating_witness :
    (∀ e ∈ [Event.command 2, Event.WorldUpdate ⟨1, 0, 24⟩, Event.vel_tor_command 1,
        Event.set_speed 5], e.isSetTorqueLimit = false) ∧
    (UpdateMotor positionModeExample
      { positionModeExample.current_motor_state with torque_enabled := false }).joint.fmax
      = 0 ∧
    (run positionModeExample
      (Event.torque_enable false ::
        [Event.command 2, Event.WorldUpdate ⟨1, 0, 24⟩, Event.vel_tor_command 1,
          Event.set_speed 5]
        ++ [Event.torque_enable true, Event.WorldUpdate ⟨1, 0, 25⟩])).joint.fmax = 10 :=
  have hb : ∀ e ∈ [Event.command 2, Event.WorldUpdate ⟨1, 0, 24⟩, Event.vel_tor_command 1,
      Event.set_speed 5], e.isSetTorqueLimit = false := by
    simp [Event.isSetTorqueLimit]
  have h := torque_gating positionModeExample
    { positionModeExample.current_motor_state with torque_enabled := false }
    [Event.command 2, Event.WorldUpdate ⟨1, 0, 24⟩, Event.vel_tor_command 1,
      Event.set_speed 5] ⟨1, 0, 25⟩ hb
  ⟨hb, h.2.1, h.2.2.2⟩

/-- C3: for every Position-mode state produced by `ReadMotor` whose error
does not satisfy `|error_rad| < motor_allowed_error`, where `error_rad` is
`goal_pos_rad - current_pos_rad`, the tick makes exactly one write to `"vel"`,
of `sgn(error_rad) * velocity_limit_rad_s * sgn(demultiply_value)`, and that is
the value the joint holds afterwards. With tolerance 0.01, goal 1.0, current
0.5, velocity limit 2.0 and demultiply 1 the written velocity is 2. -/
theorem position_mode_not_reached_velocity (p : GazeboRosDynamixelMotor) (temp : ℤ)
    (hm : (ReadMotor p temp).mode = MotorStateMode.Position)
    (hn : ¬ |(ReadMotor p temp).error_rad| < p.motor_allowed_error) :
    (ReadMotor p temp).error_rad
      = (ReadMotor p temp).goal_pos_rad - (ReadMotor p temp).current_pos_rad ∧
    writesTo "vel" (OnWorldUpdateCalls p temp)
      = [(Td.sgn (ReadMotor p temp).error_rad : ℚ)
          * (ReadMotor p temp).velocity_limit_rad_s
          * (Td.sgn (ReadMotor p temp).demultiply_value : ℚ)] ∧
    (OnWorldUpdate p temp).joint.vel
      = (Td.sgn (ReadMotor p temp).error_rad : ℚ)
          * (ReadMotor p temp).velocity_limit_rad_s
          * (Td.sgn (ReadMotor p temp).demultiply_value : ℚ) ∧
    (UpdateMotor p (ReadMotor p temp)).joint.vel
      = (Td.sgn (ReadMotor p temp).error_rad : ℚ)
          * (ReadMotor p temp).velocity_limit_rad_s
          * (Td.sgn (ReadMotor p temp).demultiply_value : ℚ) ∧
    (positionModeExample.motor_allowed_error = 1 / 100 ∧
      (ReadMotor positionModeExample 24).goal_pos_rad = 1 ∧
      (ReadMotor positionModeExample 24).current_pos_rad = 1 / 2 ∧
      (ReadMotor positionModeExample 24).velocity_limit_rad_s = 2 ∧
      (ReadMotor positionModeExample 24).demultiply_value = 1 ∧
      (OnWorldUpdate positionModeExample 24).joint.vel = 2) := by
  have hmp : p.current_motor_state.mode = MotorStateMode.Position := by
    rw [← ReadMotor_mode p temp]; exact hm
  have hrd := ReadMotor_position p temp hmp
  have herr : (ReadMotor p temp).error_rad
      = (ReadMotor p temp).goal_pos_rad - (ReadMotor p temp).current_pos_rad := by
    rw [hrd]
  have hg1 : goal_reached p (ReadMotor p temp) = false := by
    rw [goal_reached_eq_false_iff, ← herr]; exact hn
  have hg2 : goal_reached { p with current_motor_state := ReadMotor p temp }
      (ReadMotor p temp) = false := by
    rw [goal_reached_eq_false_iff, ← herr]; exact hn
  have ht1 : target_velocity p (ReadMotor p temp)
      = (Td.sgn (ReadMotor p temp).error_rad : ℚ)
          * (ReadMotor p temp).velocity_limit_rad_s
          * (Td.sgn (ReadMotor p temp).demultiply_value : ℚ) := by
    rw [herr]; simp [target_velocity, hrd]
  have ht2 : target_velocity { p with current_motor_state := ReadMotor p temp }
      (ReadMotor p temp)
      = (Td.sgn (ReadMotor p temp).error_rad : ℚ)
          * (ReadMotor p temp).velocity_limit_rad_s
          * (Td.sgn (ReadMotor p temp).demultiply_value : ℚ) := by
    rw [herr]; simp [target_velocity]
  have hv1 := UpdateMotor_position_vel p (ReadMotor p temp) hm
  have hv2 := UpdateMotor_position_vel { p with current_motor_state := ReadMotor p temp }
    (ReadMotor p temp) hm
  rw [hg1, ht1] at hv1
  rw [hg2, ht2] at hv2
  refine ⟨herr, ?_, ?_, ?_, ?_⟩
  · simpa [OnWorldUpdateCalls] using hv2.1
  · simpa [OnWorldUpdate] using hv2.2
  · simpa using hv1.2
  · have hx := UpdateMotor_position_vel
      { positionModeExample with current_motor_state := ReadMotor positionModeExample 24 }
      (ReadMotor positionModeExample 24) rfl
    refine ⟨rfl, rfl, ?_, rfl, rfl, ?_⟩
    · norm_num [ReadMotor, positionModeExample]
    · rw [OnWorldUpdate, hx.2]
      norm_num [positionModeExample, ReadMotor, goal_reached, target_velocity, Td.sgn, abs_lt]

/-- Witness of C3: after a position command with goal 0 the example joint at
angle 0.5 has error -0.5, outside the tolerance 0.01, and the tick writes
velocity -2. -/
theorem position_mode_not_reached_velocity_witness :
    (ReadMotor (command_subscriber positionModeExample 0) 24).mode
      = MotorStateMode.Position ∧
    ¬ |(ReadMotor (command_subscriber positionModeExample 0) 24).error_rad|
        < (command_subscriber positionModeExample 0).motor_allowed_error ∧
    (OnWorldUpdate (command_subscriber positionModeExample 0) 24).joint.vel = -2 :=
  have hm : (ReadMotor (command_subscriber positionModeExample 0) 24).mode
      = MotorStateMode.Position := rfl
  have hn : ¬ |(ReadMotor (command_subscriber positionModeExample 0) 24).error_rad|
      < (command_subscriber positionModeExample 0).motor_allowed_error := by
    norm_num [ReadMotor, command_subscriber, positionModeExample, abs_lt]
  have h := position_mode_not_reached_velocity
    (command_subscriber positionModeExample 0) 24 hm hn
  ⟨hm, hn, by
    rw [h.2.2.1]
    norm_num [ReadMotor, command_subscriber, positionModeExample, Td.sgn]⟩

/-- C4: goal-reached idempotence. From a stored Position-mode state whose
sampled error satisfies `|error_rad| < motor_allowed_error`, any number of
consecutive ticks with no other event in between and with the joint angle
unchanged all write velocity 0 to the joint, and nothing else to `"vel"`; the
joint's velocity parameter is 0 after them. On every sampled Position-mode
state the decision `goal_reached`, taken from `goal_pos_rad - current_pos_rad`,
is the same as `|error_rad| < motor_allowed_error`. With tolerance 0.01, goal
1.0 and current 1.005 the goal is reached and the written velocity is 0. -/
theorem goal_reached_idempotence (p : GazeboRosDynamixelMotor) (temp : ℤ)
    (readings : List Reading)
    (hm : p.current_motor_state.mode = MotorStateMode.Position)
    (hr : |(ReadMotor p temp).error_rad| < p.motor_allowed_error)
    (hangle : ∀ r ∈ readings, r.angle = p.joint.angle) :
    (tickCalls p readings).length = readings.length ∧
    (∀ calls ∈ tickCalls p readings, writesTo "vel" calls = [0]) ∧
    (readings ≠ [] → (run p (readings.map Event.WorldUpdate)).joint.vel = 0) ∧
    (∀ (q : GazeboRosDynamixelMotor) (t : ℤ),
      (ReadMotor q t).mode = MotorStateMode.Position →
      (goal_reached { q with current_motor_state := ReadMotor q t } (ReadMotor q t) = true
        ↔ |(ReadMotor q t).error_rad| < q.motor_allowed_error)) ∧
    (atGoalExample.motor_allowed_error = 1 / 100 ∧
      (ReadMotor atGoalExample 24).goal_pos_rad = 1 ∧
      (ReadMotor atGoalExample 24).current_pos_rad = 201 / 200 ∧
      goal_reached { atGoalExample with current_motor_state := ReadMotor atGoalExample 24 }
        (ReadMotor atGoalExample 24) = true ∧
      writesTo "vel" (OnWorldUpdateCalls atGoalExample 24) = [0] ∧
      (OnWorldUpdate atGoalExample 24).joint.vel = 0) := by
  have hr2 : |p.current_motor_state.goal_pos_rad
      - p.joint.angle * p.current_motor_state.demultiply_value| < p.motor_allowed_error := by
    simpa [ReadMotor_position p temp hm] using hr
  have h := tickCalls_at_goal p.joint.angle readings p hm hr2 hangle
  refine ⟨tickCalls_length readings p, h.1, h.2, ?_, ?_⟩
  · intro q t hq
    have hqm : q.current_motor_state.mode = MotorStateMode.Position := by
      rw [← ReadMotor_mode q t]; exact hq
    rw [goal_reached_iff, ReadMotor_position q t hqm]
  · have hx := UpdateMotor_position_vel
      { atGoalExample with current_motor_state := ReadMotor atGoalExample 24 }
      (ReadMotor atGoalExample 24) rfl
    have hg : goal_reached
        { atGoalExample with current_motor_state := ReadMotor atGoalExample 24 }
        (ReadMotor atGoalExample 24) = true := by
      norm_num [atGoalExample, ReadMotor, goal_reached, abs_lt]
    rw [hg] at hx
    refine ⟨rfl, rfl, ?_, hg, ?_, ?_⟩
    · norm_num [ReadMotor, atGoalExample]
    · simpa [OnWorldUpdateCalls] using hx.1
    · simpa [OnWorldUpdate] using hx.2

/-- Witness of C4: three ticks of the at-goal example with the joint staying at
angle 1.005 (error -0.005, tolerance 0.01) each write velocity 0. -/
theorem goal_reached_idempotence_witness :
    atGoalExample.current_motor_state.mode = MotorStateMode.Position ∧
    |(ReadMotor atGoalExample 24).error_rad| < atGoalExample.motor_allowed_error ∧
    (∀ calls ∈ tickCalls atGoalExample
        [⟨201 / 200, 0, 23⟩, ⟨201 / 200, 1, 25⟩, ⟨201 / 200, 0, 24⟩],
      writesTo "vel" calls = [0]) :=
  have hr : |(ReadMotor atGoalExample 24).error_rad| < atGoalExample.motor_allowed_error := by
    norm_num [ReadMotor, atGoalExample, abs_lt]
  have h := goal_reached_idempotence atGoalExample 24
    [⟨201 / 200, 0, 23⟩, ⟨201 / 200, 1, 25⟩, ⟨201 / 200, 0, 24⟩] rfl hr
    (by simp [atGoalExample])
  ⟨rfl, hr, h.2.1⟩

/-! ## The set-speed request -/

/-- C5, refuted as stated: on the Position-mode example (velocity limit 2) a
set-speed request with value 5 leaves `velocity_limit_rad_s` at 2, changes
`velocity_rad_s` from 0 to 5, and the next tick, which is in Position mode and
not at the goal, writes velocity 2, whose magnitude is not 5. -/
theorem SetSpeedService_leaves_velocity_limit :
    (SetSpeedService positionModeExample 5).2.current_motor_state.velocity_limit_rad_s = 2 ∧
    (SetSpeedService positionModeExample 5).2.current_motor_state.velocity_limit_rad_s ≠ 5 ∧
    positionModeExample.current_motor_state.velocity_rad_s = 0 ∧
    (SetSpeedService positionModeExample 5).2.current_motor_state.velocity_rad_s = 5 ∧
    (ReadMotor (SetSpeedService positionModeExample 5).2 24).mode = MotorStateMode.Position ∧
    ¬ |(ReadMotor (SetSpeedService positionModeExample 5).2 24).error_rad|
        < (SetSpeedService positionModeExample 5).2.motor_allowed_error ∧
    (OnWorldUpdate (SetSpeedService positionModeExample 5).2 24).joint.vel = 2 ∧
    |(OnWorldUpdate (SetSpeedService positionModeExample 5).2 24).joint.vel| ≠ |(5 : ℚ)| := by
  have hx := UpdateMotor_position_vel
    { (SetSpeedService positionModeExample 5).2 with
      current_motor_state := ReadMotor (SetSpeedService positionModeExample 5).2 24 }
    (ReadMotor (SetSpeedService positionModeExample 5).2 24) rfl
  have hv : (OnWorldUpdate (SetSpeedService positionModeExample 5).2 24).joint.vel = 2 := by
    rw [OnWorldUpdate, hx.2]
    norm_num [SetSpeedService, positionModeExample, ReadMotor, goal_reached, target_velocity,
      Td.sgn, abs_lt]
  refine ⟨rfl, ?_, rfl, rfl, rfl, ?_, hv, ?_⟩
  · norm_num [SetSpeedService, positionModeExample]
  · norm_num [SetSpeedService, positionModeExample, ReadMotor, abs_lt]
  · rw [hv]; norm_num

/-- C5, amended: the set-speed request with value `v` returns `true` and sets
the stored `velocity_rad_s` to `v`; every other field of the motor state, in
particular `velocity_limit_rad_s`, the joint and the tolerance are unchanged.
The next tick makes the same joint writes as it would have made without the
request; in Position mode, not at the goal, with nonzero error and nonzero
`demultiply_value`, the velocity it writes has the magnitude of the
`velocity_limit_rad_s` stored before the request. -/
theorem SetSpeedService_sets_commanded_velocity (p : GazeboRosDynamixelMotor) (v : ℚ)
    (temp : ℤ) :
    (SetSpeedService p v).1 = true ∧
    (
    ((SetSpeedService p v).2).current_motor_state.mode = p.current_motor_state.mode ∧
    ((SetSpeedService p v).2).current_motor_state.motor_id = p.current_motor_state.motor_id ∧
    ((SetSpeedService p v).2).current_motor_state.motor_temp = p.current_motor_state.motor_temp ∧
    ((SetSpeedService p v).2).current_motor_state.current_pos_rad
      = p.current_motor_state.current_pos_rad ∧
    ((SetSpeedService p v).2).current_motor_state.goal_pos_rad
      = p.current_motor_state.goal_pos_rad ∧
    ((SetSpeedService p v).2).current_motor_state.velocity_rad_s = v ∧
    ((SetSpeedService p v).2).current_motor_state.velocity_limit_rad_s
      = p.current_motor_state.velocity_limit_rad_s ∧
    ((SetSpeedService p v).2).current_motor_state.error_rad = p.current_motor_state.error_rad ∧
    ((SetSpeedService p v).2).current_motor_state.is_moving = p.current_motor_state.is_moving ∧
    ((SetSpeedService p v).2).current_motor_state.torque_enabled
      = p.current_motor_state.torque_enabled ∧
    ((SetSpeedService p v).2).current_motor_state.torque_limit
      = p.current_motor_state.torque_limit ∧
    ((SetSpeedService p v).2).current_motor_state.load = p.current_motor_state.load ∧
    ((SetSpeedService p v).2).current_motor_state.demultiply_value
      = p.current_motor_state.demultiply_value ∧
    ((SetSpeedService p v).2).joint = p.joint ∧
    ((SetSpeedService p v).2).motor_allowed_error = p.motor_allowed_error) ∧
    OnWorldUpdateCalls (SetSpeedService p v).2 temp = OnWorldUpdateCalls p temp ∧
    (OnWorldUpdate (SetSpeedService p v).2 temp).joint = (OnWorldUpdate p temp).joint ∧
    (p.current_motor_state.mode = MotorStateMode.Position →
      ¬ |(ReadMotor p temp).error_rad| < p.motor_allowed_error →
      (ReadMotor p temp).error_rad ≠ 0 →
      p.current_motor_state.demultiply_value ≠ 0 →
      |(OnWorldUpdate (SetSpeedService p v).2 temp).joint.vel|
        = |p.current_motor_state.velocity_limit_rad_s|) := by
  have hcalls : OnWorldUpdateCalls (SetSpeedService p v).2 temp = OnWorldUpdateCalls p temp := by
    cases hm : p.current_motor_state.mode <;>
      simp [OnWorldUpdateCalls, UpdateMotorCalls, SetSpeedService, ReadMotor, goal_reached,
        target_velocity, hm]
  have hjoint : (OnWorldUpdate (SetSpeedService p v).2 temp).joint
      = (OnWorldUpdate p temp).joint := by
    have h1 : (OnWorldUpdate (SetSpeedService p v).2 temp).joint
        = p.joint.applyCalls (OnWorldUpdateCalls (SetSpeedService p v).2 temp) := rfl
    have h2 : (OnWorldUpdate p temp).joint
        = p.joint.applyCalls (OnWorldUpdateCalls p temp) := rfl
    rw [h1, h2, hcalls]
  refine ⟨rfl, ?_, hcalls, hjoint, ?_⟩
  · simp [SetSpeedService]
  · intro hm hn he hd
    rw [hjoint]
    have hrm : (ReadMotor p temp).mode = MotorStateMode.Position := by
      rw [ReadMotor_mode]; exact hm
    have hrd := ReadMotor_position p temp hm
    have hx := UpdateMotor_position_vel { p with current_motor_state := ReadMotor p temp }
      (ReadMotor p temp) hrm
    have hg : goal_reached { p with current_motor_state := ReadMotor p temp }
        (ReadMotor p temp) = false := by
      rw [goal_reached_eq_false_iff]
      rw [hrd] at hn ⊢
      exact hn
    rw [hg] at hx
    have hv : (OnWorldUpdate p temp).joint.vel
        = target_velocity { p with current_motor_state := ReadMotor p temp }
            (ReadMotor p temp) := by
      simpa [OnWorldUpdate] using hx.2
    rw [hv]
    have he2 : p.current_motor_state.goal_pos_rad
        - p.joint.angle * p.current_motor_state.demultiply_value ≠ 0 := by
      rw [hrd] at he; exact he
    simp only [target_velocity]
    rw [hrd]
    simp only [abs_mul]
    rw [abs_Td_sgn _ he2, abs_Td_sgn _ hd]
    simp

/-- Witness of C5 (amended): the set-speed request with value 5 on the
Position-mode example, which is not at its goal and has velocity limit 2, is
followed by a tick that writes a velocity of magnitude 2. -/
theorem SetSpeedService_sets_commanded_velocity_witness :
    positionModeExample.current_motor_state.mode = MotorStateMode.Position ∧
    ¬ |(ReadMotor positionModeExample 24).error_rad|
        < positionModeExample.motor_allowed_error ∧
    (ReadMotor positionModeExample 24).error_rad ≠ 0 ∧
    positionModeExample.current_motor_state.demultiply_value ≠ 0 ∧
    (SetSpeedService positionModeExample 5).2.current_motor_state.velocity_rad_s = 5 ∧
    |(OnWorldUpdate (SetSpeedService positionModeExample 5).2 24).joint.vel| = |(2 : ℚ)| :=
  have hn : ¬ |(ReadMotor positionModeExample 24).error_rad|
      < positionModeExample.motor_allowed_error := by
    norm_num [positionModeExample, ReadMotor, abs_lt]
  have he : (ReadMotor positionModeExample 24).error_rad ≠ 0 := by
    norm_num [positionModeExample, ReadMotor]
  have hd : positionModeExample.current_motor_state.demultiply_value ≠ 0 := by
    norm_num [positionModeExample]
  have h := SetSpeedService_sets_commanded_velocity positionModeExample 5 24
  ⟨rfl, hn, he, hd, rfl, h.2.2.2.2 rfl hn he hd⟩

/-! ## Sign consistency -/

/-- C8, refuted as stated: `Load` accepts the configured velocity limit -2;
after a position command with goal 1 and a tick at joint angle 0 the stored
state is in Position mode with error 1 (not within the tolerance 0.01) and
`demultiply_value` 1, and the tick has written velocity -2, whose sign -1 is
not `sgn(error_rad) * sgn(demultiply_value) = 1`. -/
theorem sign_consistency_fails_for_negative_limit :
    Load (some restJoint) true negativeLimitSdf zeroMotorState = some negativeLimitLoaded ∧
    (run negativeLimitLoaded [Event.command 1, Event.WorldUpdate ⟨0, 0, 24⟩]
      ).current_motor_state.mode = MotorStateMode.Position ∧
    (run negativeLimitLoaded [Event.command 1, Event.WorldUpdate ⟨0, 0, 24⟩]
      ).current_motor_state.error_rad = 1 ∧
    (run negativeLimitLoaded [Event.command 1, Event.WorldUpdate ⟨0, 0, 24⟩]
      ).current_motor_state.demultiply_value = 1 ∧
    (run negativeLimitLoaded [Event.command 1, Event.WorldUpdate ⟨0, 0, 24⟩]
      ).motor_allowed_error = 1 / 100 ∧
    (run negativeLimitLoaded [Event.command 1, Event.WorldUpdate ⟨0, 0, 24⟩]).joint.vel = -2 ∧
    Td.sgn (run negativeLimitLoaded [Event.command 1, Event.WorldUpdate ⟨0, 0, 24⟩]).joint.vel
      ≠ Td.sgn (run negativeLimitLoaded [Event.command 1, Event.WorldUpdate ⟨0, 0, 24⟩]
            ).current_motor_state.error_rad
        * Td.sgn (run negativeLimitLoaded [Event.command 1, Event.WorldUpdate ⟨0, 0, 24⟩]
            ).current_motor_state.demultiply_value := by
  have hload : Load (some restJoint) true negativeLimitSdf zeroMotorState
      = some negativeLimitLoaded := by
    norm_num [Load, GetValueFromElement, negativeLimitSdf, emptySdf, zeroMotorState,
      negativeLimitLoaded, defaultLoaded, restJoint, Joint.SetPosition]
  have hrun : run negativeLimitLoaded [Event.command 1, Event.WorldUpdate ⟨0, 0, 24⟩]
      = OnWorldUpdate (command_subscriber negativeLimitLoaded 1) 24 := rfl
  have hx := UpdateMotor_position_vel
    { command_subscriber negativeLimitLoaded 1 with
      current_motor_state := ReadMotor (command_subscriber negativeLimitLoaded 1) 24 }
    (ReadMotor (command_subscriber negativeLimitLoaded 1) 24) rfl
  have hv : (OnWorldUpdate (command_subscriber negativeLimitLoaded 1) 24).joint.vel = -2 := by
    rw [OnWorldUpdate, hx.2]
    norm_num [command_subscriber, negativeLimitLoaded, defaultLoaded, zeroMotorState,
      restJoint, ReadMotor, goal_reached, target_velocity, Td.sgn, abs_lt]
  have he : (OnWorldUpdate (command_subscriber negativeLimitLoaded 1) 24
      ).current_motor_state.error_rad = 1 := by
    norm_num [OnWorldUpdate, UpdateMotor, command_subscriber, negativeLimitLoaded,
      defaultLoaded, zeroMotorState, restJoint, ReadMotor]
  have hd : (OnWorldUpdate (command_subscriber negativeLimitLoaded 1) 24
      ).current_motor_state.demultiply_value = 1 := rfl
  rw [hrun]
  refine ⟨hload, rfl, he, hd, rfl, hv, ?_⟩
  rw [hv, he, hd]
  norm_num [Td.sgn]

/-- C8, amended: let the stored state be a sampled Position-mode state
(`error_rad = goal_pos_rad - current_pos_rad`) whose goal is not reached. Then
`UpdateMotor` writes `sgn(error_rad) * velocity_limit_rad_s *
sgn(demultiply_value)`, whose sign is `sgn(error_rad) *
sgn(velocity_limit_rad_s) * sgn(demultiply_value)`; when `velocity_limit_rad_s`
is positive the sign is `sgn(error_rad) * sgn(demultiply_value)`. For every
velocity limit, a second such state with the same limit and tolerance in which
either `error_rad` alone or `demultiply_value` alone is negated is not at its
goal either, and gets the negated velocity, of the same magnitude. -/
theorem sign_consistency (p q : GazeboRosDynamixelMotor)
    (hm : p.current_motor_state.mode = MotorStateMode.Position)
    (herr : p.current_motor_state.error_rad
      = p.current_motor_state.goal_pos_rad - p.current_motor_state.current_pos_rad)
    (hn : ¬ |p.current_motor_state.error_rad| < p.motor_allowed_error) :
    (UpdateMotor p p.current_motor_state).joint.vel
      = (Td.sgn p.current_motor_state.error_rad : ℚ)
          * p.current_motor_state.velocity_limit_rad_s
          * (Td.sgn p.current_motor_state.demultiply_value : ℚ) ∧
    Td.sgn (UpdateMotor p p.current_motor_state).joint.vel
      = Td.sgn p.current_motor_state.error_rad
          * Td.sgn p.current_motor_state.velocity_limit_rad_s
          * Td.sgn p.current_motor_state.demultiply_value ∧
    (0 < p.current_motor_state.velocity_limit_rad_s →
      Td.sgn (UpdateMotor p p.current_motor_state).joint.vel
        = Td.sgn p.current_motor_state.error_rad
            * Td.sgn p.current_motor_state.demultiply_value) ∧
    (q.current_motor_state.mode = MotorStateMode.Position →
      q.current_motor_state.error_rad
        = q.current_motor_state.goal_pos_rad - q.current_motor_state.current_pos_rad →
      q.motor_allowed_error = p.motor_allowed_error →
      q.current_motor_state.velocity_limit_rad_s
        = p.current_motor_state.velocity_limit_rad_s →
      ((q.current_motor_state.error_rad = - p.current_motor_state.error_rad
          ∧ q.current_motor_state.demultiply_value = p.current_motor_state.demultiply_value)
        ∨ (q.current_motor_state.error_rad = p.current_motor_state.error_rad
          ∧ q.current_motor_state.demultiply_value
            = - p.current_motor_state.demultiply_value)) →
      ¬ |q.current_motor_state.error_rad| < q.motor_allowed_error ∧
      (UpdateMotor q q.current_motor_state).joint.vel
        = - (UpdateMotor p p.current_motor_state).joint.vel ∧
      |(UpdateMotor q q.current_motor_state).joint.vel|
        = |(UpdateMotor p p.current_motor_state).joint.vel|) := by
  have key : ∀ r : GazeboRosDynamixelMotor,
      r.current_motor_state.mode = MotorStateMode.Position →
      r.current_motor_state.error_rad
        = r.current_motor_state.goal_pos_rad - r.current_motor_state.current_pos_rad →
      ¬ |r.current_motor_state.error_rad| < r.motor_allowed_error →
      (UpdateMotor r r.current_motor_state).joint.vel
        = (Td.sgn r.current_motor_state.error_rad : ℚ)
            * r.current_motor_state.velocity_limit_rad_s
            * (Td.sgn r.current_motor_state.demultiply_value : ℚ) := by
    intro r hrm hre hrn
    have hx := UpdateMotor_position_vel r r.current_motor_state hrm
    have hg : goal_reached r r.current_motor_state = false := by
      rw [goal_reached_eq_false_iff, ← hre]; exact hrn
    rw [hg] at hx
    rw [hx.2, hre]
    simp [target_velocity]
  have hp := key p hm herr hn
  have hsgn : Td.sgn (UpdateMotor p p.current_motor_state).joint.vel
      = Td.sgn p.current_motor_state.error_rad
          * Td.sgn p.current_motor_state.velocity_limit_rad_s
          * Td.sgn p.current_motor_state.demultiply_value := by
    rw [hp, Td_sgn_mul, Td_sgn_mul, Td_sgn_cast, Td_sgn_cast]
  refine ⟨hp, hsgn, ?_, ?_⟩
  · intro hpos
    rw [hsgn, Td_sgn_pos _ hpos, mul_one]
  · intro hqm hqe hqa hqv hneg
    have hqn : ¬ |q.current_motor_state.error_rad| < q.motor_allowed_error := by
      rcases hneg with ⟨h1, _⟩ | ⟨h1, _⟩
      · rw [h1, abs_neg, hqa]; exact hn
      · rw [h1, hqa]; exact hn
    have hq := key q hqm hqe hqn
    have hvel : (UpdateMotor q q.current_motor_state).joint.vel
        = - (UpdateMotor p p.current_motor_state).joint.vel := by
      rw [hq, hp, hqv]
      rcases hneg with ⟨h1, h2⟩ | ⟨h1, h2⟩
      · rw [h1, h2, Td_sgn_neg]; push_cast; ring
      · rw [h1, h2, Td_sgn_neg]; push_cast; ring
    refine ⟨hqn, hvel, ?_⟩
    rw [hvel, abs_neg]

/-- Witness of C8 (amended): the sampled Position-mode example (goal 1,
current 0.5, error 0.5, tolerance 0.01, velocity limit 2, demultiply 1) gets
velocity 2, of sign `1 = sgn(0.5) * sgn(1)`; the same state with
`demultiply_value` -1 gets velocity -2. -/
theorem sign_consistency_witness :
    sampledExample.current_motor_state.mode = MotorStateMode.Position ∧
    sampledExample.current_motor_state.error_rad = 1 / 2 ∧
    ¬ |sampledExample.current_motor_state.error_rad| < sampledExample.motor_allowed_error ∧
    Td.sgn (UpdateMotor sampledExample sampledExample.current_motor_state).joint.vel
      = Td.sgn sampledExample.current_motor_state.error_rad
          * Td.sgn sampledExample.current_motor_state.demultiply_value ∧
    (UpdateMotor
        { sampledExample with
          current_motor_state :=
            { sampledExample.current_motor_state with demultiply_value := -1 } }
        { sampledExample.current_motor_state with demultiply_value := -1 }).joint.vel
      = - (UpdateMotor sampledExample sampledExample.current_motor_state).joint.vel :=
  have he : sampledExample.current_motor_state.error_rad = 1 / 2 := by
    norm_num [sampledExample, positionModeExample, ReadMotor]
  have herr : sampledExample.current_motor_state.error_rad
      = sampledExample.current_motor_state.goal_pos_rad
        - sampledExample.current_motor_state.current_pos_rad := by
    norm_num [sampledExample, positionModeExample, ReadMotor]
  have hn : ¬ |sampledExample.current_motor_state.error_rad|
      < sampledExample.motor_allowed_error := by
    rw [he]; norm_num [sampledExample, positionModeExample, abs_lt]
  have h := sign_consistency sampledExample
    { sampledExample with
      current_motor_state :=
        { sampledExample.current_motor_state with demultiply_value := -1 } }
    rfl herr hn
  ⟨rfl, he, hn,
    h.2.2.1 (by norm_num [sampledExample, positionModeExample, ReadMotor]),
    (h.2.2.2 rfl herr rfl rfl
      (Or.inr ⟨rfl, by norm_num [sampledExample, positionModeExample, ReadMotor]⟩)).2.1⟩

/-! ## The state invariant -/

/-- C9, refuted as stated: from the plugin `Load` builds with every default, a
position command with goal 1, a tick at joint angle 0 and a velocity command
lead to a stored state in Velocity mode whose `error_rad` is 1; the velocity
command handler turned a state satisfying the predicate into one violating
it. -/
theorem velocity_command_keeps_stale_error :
    Load (some restJoint) true emptySdf zeroMotorState = some defaultLoaded ∧
    errorZeroOutsidePosition
      (run defaultLoaded [Event.command 1, Event.WorldUpdate ⟨0, 0, 24⟩]
        ).current_motor_state ∧
    (run defaultLoaded [Event.command 1, Event.WorldUpdate ⟨0, 0, 24⟩,
      Event.vel_tor_command (1 / 2)]).current_motor_state.mode = MotorStateMode.Velocity ∧
    (run defaultLoaded [Event.command 1, Event.WorldUpdate ⟨0, 0, 24⟩,
      Event.vel_tor_command (1 / 2)]).current_motor_state.error_rad = 1 ∧
    ¬ errorZeroOutsidePosition
      (run defaultLoaded [Event.command 1, Event.WorldUpdate ⟨0, 0, 24⟩,
        Event.vel_tor_command (1 / 2)]).current_motor_state := by
  have hload : Load (some restJoint) true emptySdf zeroMotorState = some defaultLoaded := by
    norm_num [Load, GetValueFromElement, emptySdf, zeroMotorState, defaultLoaded, restJoint,
      Joint.SetPosition]
  have he : (run defaultLoaded [Event.command 1, Event.WorldUpdate ⟨0, 0, 24⟩,
      Event.vel_tor_command (1 / 2)]).current_motor_state.error_rad = 1 := by
    norm_num [run, step, vel_command, OnWorldUpdate, UpdateMotor, command_subscriber,
      defaultLoaded, zeroMotorState, restJoint, ReadMotor, Joint.move]
  refine ⟨hload, ?_, rfl, he, ?_⟩
  · intro h
    exact absurd rfl h
  · intro h
    have h0 := h (by decide)
    rw [he] at h0
    norm_num at h0

/-- C9, amended: the plugin `Load` builds satisfies "outside Position mode
`error_rad` is 0", every tick establishes it whatever the state before, and
every handler other than the velocity command preserves it. Hence it holds in
every stored state reached from the loaded plugin by a sequence of ticks and
handler calls in which no velocity command has been handled since the last
tick. -/
theorem error_zero_outside_position_when_sampled
    (joint : Option Joint) (rosInitialized : Bool) (sdf : Sdf) (fresh : MotorState)
    (p0 : GazeboRosDynamixelMotor) (events : List Event)
    (hload : Load joint rosInitialized sdf fresh = some p0)
    (hpend : pendingVelCommand events = false) :
    errorZeroOutsidePosition p0.current_motor_state ∧
    errorZeroOutsidePosition (run p0 events).current_motor_state ∧
    (∀ (p : GazeboRosDynamixelMotor) (r : Reading),
      errorZeroOutsidePosition (step p (Event.WorldUpdate r)).current_motor_state) ∧
    (∀ (p : GazeboRosDynamixelMotor) (e : Event), e.isVelCommand = false →
      errorZeroOutsidePosition p.current_motor_state →
      errorZeroOutsidePosition (step p e).current_motor_state) := by
  have h0 : errorZeroOutsidePosition p0.current_motor_state := by
    intro h
    exact absurd (Load_mode joint rosInitialized sdf fresh p0 hload) h
  exact ⟨h0, run_errorZero_of_not_pending events p0 false (fun _ => h0) hpend,
    step_WorldUpdate_errorZero, step_preserves_errorZero⟩

/-- Witness of C9 (amended): from the default-loaded plugin, a position
command, a tick, a velocity command, a set-speed request and a second tick end
in Velocity mode with `error_rad` 0. -/
theorem error_zero_outside_position_when_sampled_witness :
    Load (some restJoint) true emptySdf zeroMotorState = some defaultLoaded ∧
    pendingVelCommand [Event.command 1, Event.WorldUpdate ⟨0, 0, 24⟩,
      Event.vel_tor_command (1 / 2), Event.set_speed 3, Event.WorldUpdate ⟨0, 0, 25⟩]
      = false ∧
    (run defaultLoaded [Event.command 1, Event.WorldUpdate ⟨0, 0, 24⟩,
      Event.vel_tor_command (1 / 2), Event.set_speed 3, Event.WorldUpdate ⟨0, 0, 25⟩]
      ).current_motor_state.mode = MotorStateMode.Velocity ∧
    (run defaultLoaded [Event.command 1, Event.WorldUpdate ⟨0, 0, 24⟩,
      Event.vel_tor_command (1 / 2), Event.set_speed 3, Event.WorldUpdate ⟨0, 0, 25⟩]
      ).current_motor_state.error_rad = 0 :=
  have hload : Load (some restJoint) true emptySdf zeroMotorState = some defaultLoaded := by
    norm_num [Load, GetValueFromElement, emptySdf, zeroMotorState, defaultLoaded, restJoint,
      Joint.SetPosition]
  have h := error_zero_outside_position_when_sampled (some restJoint) true emptySdf
    zeroMotorState defaultLoaded
    [Event.command 1, Event.WorldUpdate ⟨0, 0, 24⟩, Event.vel_tor_command (1 / 2),
      Event.set_speed 3, Event.WorldUpdate ⟨0, 0, 25⟩] hload rfl
  ⟨hload, rfl, rfl, h.2.1 (by decide)⟩

end gazebo
